import Mathlib

/-!
Verification of the vendored fortio.org/log logging engine
(`vendor/fortio.org/log/logger.go`, `http_logging.go`).

The Go code is shallowly embedded: the package-global mutable state
(`Config`, the atomic `levelInternal`, the cached `Color` boolean) becomes an
explicit `LogState` value; runtime inputs that Go reads from the environment
(current time, goroutine id, caller file/line, stack trace) become an explicit
`Env` value; every logging function returns the list of records it emits
instead of writing to a sink.  `fmt.Sprintf(format, rest...)` results are
passed in as the `formatted` argument (with `restEmpty` telling whether
`rest` was empty, which the code branches on).  Go's `%q`/`strconv.Quote`
string quoting is modelled by `goQuote` (faithful on the printable ASCII
subset exercised here).  `float64` timestamps are modelled exactly: the
6-decimal fixed formatting shared by `fmt.Sprintf("%.6f", ...)` and
`strconv.AppendFloat(..., 'f', 6, 64)` is `formatTS6` over whole microseconds,
and the `TimeToTS`/`JSONEntry.Time` arithmetic is over `ℚ`.
-/

namespace FortioLog

/-- `Level` is the level of logging, an int32 in Go (`type Level int32`). -/
abbrev Level := Int

/-- Log levels, `logger.go` lines 51-63: `Debug Level = iota` ... -/
def Debug : Level := 0

def Verbose : Level := 1

def Info : Level := 2

def Warning : Level := 3

def Error : Level := 4

def Critical : Level := 5

def Fatal : Level := 6

def NoLevel : Level := 7

/-- `LogConfig`, `logger.go` lines 66-83 (the `FatalExit func(int)` field is
modelled by the `FatalOutcome` result of `Fatalf` instead of a function
pointer). -/
structure LogConfig where
  LogPrefix : String
  LogFileAndLine : Bool
  FatalPanics : Bool
  JSON : Bool
  NoTimestamp : Bool
  ConsoleColor : Bool
  ForceColor : Bool
  GoroutineID : Bool
  CombineRequestAndResponse : Bool
  Level : String
  deriving DecidableEq

/-- The package-global mutable state: `Config`, the atomic `levelInternal`
and the cached `Color` boolean from `console_logging.go`. -/
structure LogState where
  config : LogConfig
  levelInternal : Int
  color : Bool
  deriving DecidableEq

/-- Runtime inputs the Go code reads from its environment: `time.Now()`
(as whole microseconds since epoch), the formatted wall clock used by the
standard logger prefix, `goroutine.ID()`, the caller file basename and line
from `runtime.Caller`, and `debug.Stack()`. -/
structure Env where
  nowUsec : Nat
  clock : String
  gid : Int
  file : String
  line : Int
  stack : String
  deriving DecidableEq

/-- One emitted record: the level it was emitted at and the full line
written to the sink. -/
structure Rec where
  lvl : Level
  line : String
  deriving DecidableEq

/-- `LevelToStrA`, `logger.go` lines 106-114. -/
def LevelToStrA : List String :=
  ["Debug", "Verbose", "Info", "Warning", "Error", "Critical", "Fatal"]

/-- `LevelToJSON`, `logger.go` lines 118-129 (quotes included in the source
strings to save processing). -/
def LevelToJSON : List String :=
  ["\"dbug\"", "\"trace\"", "\"info\"", "\"warn\"", "\"err\"", "\"crit\"",
   "\"fatal\"", "\"info\""]

/-- `Level.String()`, `logger.go` line 216: `LevelToStrA[l]`. -/
def levelString (l : Level) : String :=
  LevelToStrA.getD l.toNat ""

/-- Indexing `LevelToJSON[lvl]` as done by the JSON emitters. -/
def levelToJSONStr (l : Level) : String :=
  LevelToJSON.getD l.toNat ""

/-- `GetLogLevel()`, `logger.go` line 331. -/
def GetLogLevel (st : LogState) : Level :=
  st.levelInternal

/-- `Log(lvl)`, `logger.go` lines 336-338:
`int32(lvl) >= atomic.LoadInt32(&levelInternal)`.
This is the single suppression gate. -/
def Log (st : LogState) (lvl : Level) : Bool :=
  st.levelInternal ≤ lvl

/-- `LogVerbose()`, `logger.go` line 560. -/
def LogVerbose (st : LogState) : Bool :=
  Log st Verbose

/-- Model of Go `%q` quoting of one character (`strconv.Quote`): faithful on
the printable ASCII subset exercised by this development. -/
def goQuoteChar (c : Char) : String :=
  if c = '"' then "\\\""
  else if c = '\\' then "\\\\"
  else if c = '\n' then "\\n"
  else if c = '\r' then "\\r"
  else if c = '\t' then "\\t"
  else String.singleton c

/-- Model of Go `%q` / `strconv.Quote` on strings. -/
def goQuote (s : String) : String :=
  "\"" ++ String.join (s.toList.map goQuoteChar) ++ "\""

/-- Left-pad a number to 6 digits, for the microsecond fraction. -/
def zeroPad6 (n : Nat) : String :=
  let s := toString n
  String.mk (List.replicate (6 - s.length) '0') ++ s

/-- 6-decimal fixed formatting of the timestamp `usec / 1e6` seconds.
In Go this is produced equivalently by `fmt.Sprintf("%.6f", TimeToTS(t))`
(general path, `jsonTimestamp`) and by
`strconv.AppendFloat(buf, TimeToTS(t), 'f', 6, 64)` (fast path,
`logSimpleJSON`): Go's `fmt` delegates float formatting to `strconv`, so the
two agree on every input; the model shares one definition. -/
def formatTS6 (usec : Nat) : String :=
  toString (usec / 1000000) ++ "." ++ zeroPad6 (usec % 1000000)

/-- `jsonTimestamp()`, `logger.go` lines 391-397. -/
def jsonTimestamp (cfg : LogConfig) (env : Env) : String :=
  if cfg.NoTimestamp then ""
  else "\"ts\":" ++ formatTS6 env.nowUsec ++ ","

/-- `jsonGID()`, `logger.go` lines 400-405. -/
def jsonGID (cfg : LogConfig) (env : Env) : String :=
  if !cfg.GoroutineID then ""
  else "\"r\":" ++ toString env.gid ++ ","

/-- The ANSI color palette struct from `console_logging.go` lines 23-35. -/
structure ColorScheme where
  Reset : String
  Red : String
  Green : String
  Yellow : String
  Blue : String
  Purple : String
  Cyan : String
  Gray : String
  White : String
  BrightRed : String
  DarkGray : String

/-- `Colors`, `console_logging.go` lines 41-53 (`\033` is `\x1b`). -/
def Colors : ColorScheme :=
  ⟨"\x1b[0m", "\x1b[31m", "\x1b[32m", "\x1b[33m", "\x1b[34m", "\x1b[35m",
   "\x1b[36m", "\x1b[37m", "\x1b[97m", "\x1b[91m", "\x1b[90m"⟩

/-- `LevelToColor`, `console_logging.go` lines 56-64. -/
def LevelToColor : List String :=
  [Colors.Gray, Colors.Cyan, Colors.Green, Colors.Yellow, Colors.Red,
   Colors.Purple, Colors.BrightRed]

/-- Indexing `LevelToColor[lvl]`. -/
def levelColor (l : Level) : String :=
  LevelToColor.getD l.toNat ""

/-- `colorTimestamp()`, `console_logging.go` lines 92-97: dark-gray wall
clock (the `time.Now().Format` result is the `clock` environment input). -/
def colorTimestamp (cfg : LogConfig) (env : Env) : String :=
  if cfg.NoTimestamp then ""
  else Colors.DarkGray ++ env.clock ++ " "

/-- Modelled from the spec: `ColorLevelToStr` (referenced by `logger.go` but
defined in a console-logging source file not present under `src/`): the
"bracketed level abbreviation (3-letter code: DBG/VRB/INF/WRN/ERR/CRI/FTL,
empty for NoLevel)" of spec section 4.4. -/
def ColorLevelToStr (lvl : Level) : String :=
  if lvl = NoLevel then ""
  else "[" ++ (["DBG", "VRB", "INF", "WRN", "ERR", "CRI", "FTL"].getD lvl.toNat "") ++ "]"

/-- Modelled from the spec: `colorGID` (referenced by `logger.go` but defined
in a console-logging source file not present under `src/`): the "optional
gray goroutine tag" of spec section 4.4, present only when
`Config.GoroutineID` is set. -/
def colorGID (cfg : LogConfig) (env : Env) : String :=
  if !cfg.GoroutineID then ""
  else Colors.Gray ++ "r" ++ toString env.gid ++ " "

/-- A line written through the standard Go logger (`log.Print` with
`log.Ltime` flags): the wall-clock prefix, the concatenated arguments, and
the newline the standard logger appends. -/
def stdLogLine (env : Env) (s : String) : String :=
  env.clock ++ " " ++ s ++ "\n"

/-- `logSimpleJSON`, `logger.go` lines 418-431: the fast path writing
`{"ts":<float 6 decimals>,"level":<lvl>,"msg":<%q msg>}\n` through the
reusable buffer. -/
def logSimpleJSON (env : Env) (lvl : Level) (msg : String) : Rec :=
  ⟨lvl, "\x7b\"ts\":" ++ formatTS6 env.nowUsec ++ ",\"level\":" ++ levelToJSONStr lvl
    ++ ",\"msg\":" ++ goQuote msg ++ "\x7d\n"⟩

/-- `logUnconditionalf`, `logger.go` lines 433-476.  `formatted` is the
result of `fmt.Sprintf(format, rest...)`; `restEmpty` is `len(rest) == 0`
(the branch at line 464 applies `Sprintf` only when `rest` is non-empty and
otherwise uses `format` verbatim). -/
def logUnconditionalf (cfg : LogConfig) (color : Bool) (env : Env)
    (logFileAndLine : Bool) (lvl : Level) (format : String)
    (restEmpty : Bool) (formatted : String) : Rec :=
  let prefix0 := if cfg.LogPrefix = "" then " " else cfg.LogPrefix
  let prefix1 := if lvl = NoLevel then "" else prefix0
  if logFileAndLine then
    if color then
      ⟨lvl, colorTimestamp cfg env ++ colorGID cfg env ++ ColorLevelToStr lvl
        ++ " " ++ env.file ++ ":" ++ toString env.line ++ prefix1
        ++ levelColor lvl ++ formatted ++ Colors.Reset ++ "\n"⟩
    else if cfg.JSON then
      ⟨lvl, "\x7b" ++ jsonTimestamp cfg env ++ "\"level\":" ++ levelToJSONStr lvl
        ++ "," ++ jsonGID cfg env ++ "\"file\":" ++ goQuote env.file
        ++ ",\"line\":" ++ toString env.line ++ ",\"msg\":" ++ goQuote formatted
        ++ "\x7d\n"⟩
    else
      let lvl1Char := if lvl ≠ NoLevel then "[" ++ (levelString lvl).take 1 ++ "]" else ""
      ⟨lvl, stdLogLine env (lvl1Char ++ " " ++ env.file ++ ":" ++ toString env.line
        ++ prefix1 ++ formatted)⟩
  else
    if color then
      ⟨lvl, colorTimestamp cfg env ++ colorGID cfg env ++ ColorLevelToStr lvl
        ++ prefix1 ++ levelColor lvl ++ formatted ++ Colors.Reset ++ "\n"⟩
    else if cfg.JSON then
      let format2 := if restEmpty then format else formatted
      ⟨lvl, "\x7b" ++ jsonTimestamp cfg env ++ "\"level\":" ++ levelToJSONStr lvl
        ++ "," ++ jsonGID cfg env ++ "\"msg\":" ++ goQuote format2 ++ "\x7d\n"⟩
    else
      let lvl1Char := if lvl ≠ NoLevel then "[" ++ (levelString lvl).take 1 ++ "]" else ""
      ⟨lvl, stdLogLine env (lvl1Char ++ prefix1 ++ formatted)⟩

/-- `logPrintf`, `logger.go` lines 407-416: the gate, the fast-path
condition, and the fallback to `logUnconditionalf`. -/
def logPrintf (st : LogState) (env : Env) (lvl : Level) (format : String)
    (restEmpty : Bool) (formatted : String) : List Rec :=
  if !Log st lvl then []
  else if st.config.JSON && !st.config.LogFileAndLine && !st.color
      && !st.config.NoTimestamp && !st.config.GoroutineID && restEmpty then
    [logSimpleJSON env lvl format]
  else
    [logUnconditionalf st.config st.color env st.config.LogFileAndLine lvl
      format restEmpty formatted]

/-- `Logf`, `logger.go` lines 348-350. -/
def Logf (st : LogState) (env : Env) (lvl : Level) (format : String)
    (restEmpty : Bool) (formatted : String) : List Rec :=
  logPrintf st env lvl format restEmpty formatted

/-- `Debugf`, `logger.go` lines 498-500. -/
def Debugf (st : LogState) (env : Env) (format : String)
    (restEmpty : Bool) (formatted : String) : List Rec :=
  logPrintf st env Debug format restEmpty formatted

/-- `LogVf`, `logger.go` lines 503-505. -/
def LogVf (st : LogState) (env : Env) (format : String)
    (restEmpty : Bool) (formatted : String) : List Rec :=
  logPrintf st env Verbose format restEmpty formatted

/-- `Infof`, `logger.go` lines 508-510. -/
def Infof (st : LogState) (env : Env) (format : String)
    (restEmpty : Bool) (formatted : String) : List Rec :=
  logPrintf st env Info format restEmpty formatted

/-- `Warnf`, `logger.go` lines 513-515. -/
def Warnf (st : LogState) (env : Env) (format : String)
    (restEmpty : Bool) (formatted : String) : List Rec :=
  logPrintf st env Warning format restEmpty formatted

/-- `Errf`, `logger.go` lines 518-520. -/
def Errf (st : LogState) (env : Env) (format : String)
    (restEmpty : Bool) (formatted : String) : List Rec :=
  logPrintf st env Error format restEmpty formatted

/-- `Critf`, `logger.go` lines 523-525. -/
def Critf (st : LogState) (env : Env) (format : String)
    (restEmpty : Bool) (formatted : String) : List Rec :=
  logPrintf st env Critical format restEmpty formatted

/-- `Printf`, `logger.go` lines 479-481: unconditional, at `NoLevel`. -/
def Printf (st : LogState) (env : Env) (format : String)
    (restEmpty : Bool) (formatted : String) : List Rec :=
  [logUnconditionalf st.config st.color env false NoLevel format restEmpty formatted]

/-- The two ways `Fatalf` can terminate: a Go `panic("aborting...")`
(recoverable by a caller-installed deferred `recover`, and reached without
calling `Config.FatalExit`) or a single call `Config.FatalExit(code)`. -/
inductive FatalOutcome where
  | panicked (msg : String)
  | exited (code : Int)
  deriving DecidableEq

/-- `Fatalf`, `logger.go` lines 528-534. -/
def Fatalf (st : LogState) (env : Env) (format : String)
    (restEmpty : Bool) (formatted : String) : List Rec × FatalOutcome :=
  let recs := logPrintf st env Fatal format restEmpty formatted
  if st.config.FatalPanics then (recs, .panicked "aborting...")
  else (recs, .exited 1)

/-- `setLogLevel`, `logger.go` lines 297-315: range check, optional
change announcement, store, and `Config.Level` sync.  Returns the Go return
value, the new state and the emitted records.  The function is total: the
out-of-range branches log and return `-1`, they never panic. -/
def setLogLevel (st : LogState) (env : Env) (lvl : Level) (logChange : Bool) :
    Level × LogState × List Rec :=
  let prev := GetLogLevel st
  if lvl < Debug then
    (-1, st, [logUnconditionalf st.config st.color env st.config.LogFileAndLine
      Error "SetLogLevel called with level %d lower than Debug!" false
      ("SetLogLevel called with level " ++ toString lvl ++ " lower than Debug!")])
  else if lvl > Critical then
    (-1, st, [logUnconditionalf st.config st.color env st.config.LogFileAndLine
      Error "SetLogLevel called with level %d higher than Critical!" false
      ("SetLogLevel called with level " ++ toString lvl ++ " higher than Critical!")])
  else if lvl ≠ prev then
    let recs :=
      if logChange && Log st Info then
        [logUnconditionalf st.config st.color env st.config.LogFileAndLine
          Info "Log level is now %d %s (was %d %s)" false
          ("Log level is now " ++ toString lvl ++ " " ++ levelString lvl
            ++ " (was " ++ toString prev ++ " " ++ levelString prev ++ ")")]
      else []
    (prev,
      { st with levelInternal := lvl,
                config := { st.config with Level := levelString lvl } },
      recs)
  else (prev, st, [])

/-- `SetLogLevel`, `logger.go` lines 285-287. -/
def SetLogLevel (st : LogState) (env : Env) (lvl : Level) :
    Level × LogState × List Rec :=
  setLogLevel st env lvl true

/-- `SetLogLevelQuiet`, `logger.go` lines 291-293. -/
def SetLogLevelQuiet (st : LogState) (env : Env) (lvl : Level) :
    Level × LogState × List Rec :=
  setLogLevel st env lvl false

/-- Model of Go `strings.ToLower` on one ASCII character. -/
def goLowerChar (c : Char) : Char :=
  if 'A' ≤ c ∧ c ≤ 'Z' then Char.ofNat (c.toNat + 32) else c

/-- Model of Go `strings.ToLower` (faithful on the ASCII subset used for
level names). -/
def goToLower (s : String) : String :=
  String.mk (s.toList.map goLowerChar)

/-- Go `unicode.IsSpace` on the ASCII whitespace characters. -/
def isGoSpace (c : Char) : Bool :=
  c = ' ' || c = '\t' || c = '\n' || c = '\r'

/-- Model of Go `strings.TrimSpace` (ASCII subset). -/
def goTrimSpace (s : String) : String :=
  String.mk (((s.toList.dropWhile isGoSpace).reverse.dropWhile isGoSpace).reverse)

/-- The `levelToStrM` lookup map built by `init()` (`logger.go` lines
179-185): each canonical name of `LevelToStrA` and its all-lowercase form,
both mapping to the level's index. -/
def levelToStrM : List (String × Level) :=
  LevelToStrA.enum.flatMap
    (fun p => [(p.2, (p.1 : Int)), (goToLower p.2, (p.1 : Int))])

/-- `ValidateLevel`, `logger.go` lines 221-228. -/
def ValidateLevel (str : String) : Except String Level :=
  match List.lookup str levelToStrM with
  | none => .error ("should be one of [" ++ " ".intercalate LevelToStrA ++ "]")
  | some lvl => .ok lvl

/-- `flagValidation.Set`, `logger.go` lines 259-267: trims and lowercases
the flag input before validating, then calls `SetLogLevel`.  The Go `error`
return is modelled by `Option String` (`none` = nil). -/
def flagSet (st : LogState) (env : Env) (inp : String) :
    Option String × LogState × List Rec :=
  let v := goToLower (goTrimSpace inp)
  match ValidateLevel v with
  | .error e => (some e, st, [])
  | .ok lvl =>
      let r := SetLogLevel st env lvl
      (none, r.2.1, r.2.2)

/-- `SetLogLevelStr`, `logger.go` lines 274-282: validates (without any
case folding), calls `SetLogLevel` discarding its result, and returns nil. -/
def SetLogLevelStr (st : LogState) (env : Env) (str : String) :
    Option String × LogState × List Rec :=
  match ValidateLevel str with
  | .error e => (some e, st, [])
  | .ok lvl =>
      let r := SetLogLevel st env lvl
      (none, r.2.1, r.2.2)

/-- The level-handling portion of `configFromEnv`, `logger.go` lines
196-209: `envLevel` is the `Config.Level` string after `struct2env` applied
the `LOGGER_LEVEL` environment variable; `prev` its value before.  On a
validation error the function logs with `Errf` and returns early, leaving
the threshold unchanged. -/
def configFromEnvLevel (st : LogState) (env : Env) (envLevel : String)
    (prev : String) : LogState × List Rec :=
  let st1 : LogState := { st with config := { st.config with Level := envLevel } }
  if envLevel ≠ "" ∧ envLevel ≠ prev then
    match ValidateLevel envLevel with
    | .error e =>
        (st1, Errf st1 env "Invalid log level from environment %q: %v" false
          ("Invalid log level from environment " ++ goQuote envLevel ++ ": " ++ e))
    | .ok lvl =>
        let r := SetLogLevelQuiet st1 env lvl
        let st2 := r.2.1
        let recs := r.2.2 ++ Infof st2 env "Log level set from environment %s%s to %s" false
          ("Log level set from environment LOGGER_LEVEL to " ++ levelString lvl)
        let st3 : LogState :=
          { st2 with config := { st2.config with Level := levelString (GetLogLevel st2) } }
        (st3, recs)
  else
    ({ st1 with config := { st1.config with Level := levelString (GetLogLevel st1) } }, [])

/-- The dynamic type of a value stored in a `ValueType[T]` by the `Any`/`Attr`
constructors.  `bool` and `int` cover Go's booleans and all integer kinds;
`float` carries the already-rendered shortest `strconv` form Go's
`fmt.Sprint` would produce for a floating value; `str` is a Go string;
`other` is every other type, carrying the `json.Marshal` serialization
`jsonRepr`, whether the value implements the `error` interface, and its
`Error()` message. -/
inductive GoVal where
  | bool (b : Bool)
  | int (i : Int)
  | float (rendered : String)
  | str (s : String)
  | other (jsonRepr : String) (isError : Bool) (errMsg : String)
  deriving DecidableEq

/-- `toJSON`, `logger.go` lines 632-644: the `json.Marshal` result, except
that a value implementing `error` whose serialization is the empty object
renders its quoted `Error()` message instead (the `json.Marshal`-failure
branch is not modelled; `jsonRepr` is the successful marshal output). -/
def toJSON (jsonRepr : String) (isError : Bool) (errMsg : String) : String :=
  if isError && jsonRepr = "\x7b\x7d" then goQuote errMsg else jsonRepr

/-- `ValueType[T].String()`, `logger.go` lines 646-658: `fmt.Sprint` for
booleans and numerics, `%q` for strings, `toJSON` for everything else. -/
def GoVal.render : GoVal → String
  | .bool b => if b then "true" else "false"
  | .int i => toString i
  | .float r => r
  | .str s => goQuote s
  | .other j e m => toJSON j e m

/-- `KeyVal`, `logger.go` lines 585-590. -/
structure KeyVal where
  Key : String
  StrValue : String
  Value : GoVal
  Cached : Bool
  deriving DecidableEq

/-- `KeyVal.StringValue()`, `logger.go` lines 618-624: the rendered value,
from the cache when present (the cache update mutates only the receiver
copy, so the returned string is the observable behavior). -/
def KeyVal.StringValue (v : KeyVal) : String :=
  if v.Cached then v.StrValue else v.Value.render

/-- `Any`, `logger.go` lines 665-670. -/
def Any (key : String) (value : GoVal) : KeyVal :=
  ⟨key, "", value, false⟩

/-- `Attr`, `logger.go` lines 661-663. -/
def Attr (key : String) (value : GoVal) : KeyVal :=
  Any key value

/-- `Str`, `logger.go` lines 597-599. -/
def Str (key value : String) : KeyVal :=
  Any key (.str value)

/-- `Int(key, value)`, `logger.go` lines 602-604 (named `IntKV` because
`Int` is taken in Lean). -/
def IntKV (key : String) (value : Int) : KeyVal :=
  Any key (.int value)

/-- `Int64(key, value)`, `logger.go` lines 606-608. -/
def Int64KV (key : String) (value : Int) : KeyVal :=
  Any key (.int value)

/-- `Bool(key, value)`, `logger.go` lines 614-616. -/
def BoolKV (key : String) (value : Bool) : KeyVal :=
  Any key (.bool value)

/-- The per-attribute piece `fmt.Sprintf(format, attr.Key,
attr.StringValue())` of `s`, `logger.go` lines 687-695, for the three
format strings chosen there. -/
def sAttrPiece (color json : Bool) (lvl : Level) (a : KeyVal) : String :=
  if color then
    Colors.Reset ++ ", " ++ Colors.Blue ++ a.Key ++ Colors.Reset ++ "="
      ++ levelColor lvl ++ a.StringValue
  else if json then
    "," ++ goQuote a.Key ++ ":" ++ a.StringValue
  else
    ", " ++ a.Key ++ "=" ++ a.StringValue

/-- The general branch of `s`, `logger.go` lines 685-731 (everything after
the fast-path dispatch): attribute buffer, prefix/level-char computation and
the six output branches. -/
def sGeneral (cfg : LogConfig) (color : Bool) (env : Env) (lvl : Level)
    (logFileAndLine json : Bool) (msg : String) (attrs : List KeyVal) : Rec :=
  let buf := String.join (attrs.map (sAttrPiece color json lvl))
  let prefix0 := if cfg.LogPrefix = "" then " " else cfg.LogPrefix
  let prefix1 := if lvl = NoLevel then "" else prefix0
  let lvl1Char := if lvl = NoLevel then "" else "[" ++ (levelString lvl).take 1 ++ "]"
  if logFileAndLine then
    if color then
      ⟨lvl, colorTimestamp cfg env ++ colorGID cfg env ++ ColorLevelToStr lvl
        ++ " " ++ env.file ++ ":" ++ toString env.line ++ prefix1
        ++ levelColor lvl ++ msg ++ buf ++ Colors.Reset ++ "\n"⟩
    else if json then
      ⟨lvl, "\x7b" ++ jsonTimestamp cfg env ++ "\"level\":" ++ levelToJSONStr lvl
        ++ "," ++ jsonGID cfg env ++ "\"file\":" ++ goQuote env.file
        ++ ",\"line\":" ++ toString env.line ++ ",\"msg\":" ++ goQuote msg
        ++ buf ++ "\x7d\n"⟩
    else
      ⟨lvl, stdLogLine env (lvl1Char ++ " " ++ env.file ++ ":" ++ toString env.line
        ++ prefix1 ++ msg ++ buf)⟩
  else
    if color then
      ⟨lvl, colorTimestamp cfg env ++ colorGID cfg env ++ ColorLevelToStr lvl
        ++ prefix1 ++ levelColor lvl ++ msg ++ buf ++ Colors.Reset ++ "\n"⟩
    else if json then
      ⟨lvl, "\x7b" ++ jsonTimestamp cfg env ++ "\"level\":" ++ levelToJSONStr lvl
        ++ ",\"msg\":" ++ goQuote msg ++ buf ++ "\x7d\n"⟩
    else
      ⟨lvl, stdLogLine env (lvl1Char ++ prefix1 ++ msg ++ buf)⟩

/-- `s`, `logger.go` lines 677-732: the gate, the fast-path dispatch (which
reads the global `Config` fields, not the `logFileAndLine`/`json`
parameters), then the general branch `sGeneral`. -/
def sFun (st : LogState) (env : Env) (lvl : Level)
    (logFileAndLine json : Bool) (msg : String) (attrs : List KeyVal) : List Rec :=
  if !Log st lvl then []
  else if st.config.JSON && !st.config.LogFileAndLine && !st.color
      && !st.config.NoTimestamp && !st.config.GoroutineID && attrs.isEmpty then
    [logSimpleJSON env lvl msg]
  else
    [sGeneral st.config st.color env lvl logFileAndLine json msg attrs]

/-- `S`, `logger.go` lines 673-675. -/
def S (st : LogState) (env : Env) (lvl : Level) (msg : String)
    (attrs : List KeyVal) : List Rec :=
  sFun st env lvl st.config.LogFileAndLine st.config.JSON msg attrs

/-! HTTP integration layer, `http_logging.go` (src/unnamed/part_012). -/

/-- The parts of `*http.Request` the logging layer reads.  `url` is `none`
for a nil `r.URL` (whose `json.Marshal` is `null`), otherwise the
`r.URL.String()` value.  `headers` is the canonical-key MIME header map
(`map[string][]string`). -/
structure HttpReq where
  method : String
  url : Option String
  host : String
  proto : String
  remoteAddr : String
  headers : List (String × List String)
  tlsPresent : Bool
  tlsPeerCN : Option String
  deriving DecidableEq

/-- `http.Header.Get`: first value for the canonical key, "" if absent. -/
def headerGet (r : HttpReq) (key : String) : String :=
  match List.lookup key r.headers with
  | some (v :: _) => v
  | _ => ""

/-- `AppendTLSInfoAttrs`, `http_logging.go` lines 42-51. -/
def AppendTLSInfoAttrs (attrs : List KeyVal) (r : HttpReq) : List KeyVal :=
  if !r.tlsPresent then attrs
  else
    let attrs := attrs ++ [Attr "tls" (.bool true)]
    match r.tlsPeerCN with
    | some cn => attrs ++ [Str "tls.peer_cn" cn]
    | none => attrs

/-- `AddIfNotEmpty`, `http_logging.go` lines 53-58. -/
def AddIfNotEmpty (attrs : List KeyVal) (key value : String) : List KeyVal :=
  if value ≠ "" then attrs ++ [Str key value] else attrs

/-- `LogRequest`, `http_logging.go` lines 65-107: gate on Info, the fixed
attribute set, forwarded headers when not verbose, TLS attributes, caller
extras, and the sorted full header dump when verbose; emits through
`s(Info, false, Config.JSON, ...)`. -/
def LogRequest (st : LogState) (env : Env) (r : HttpReq) (msg : String)
    (extraAttributes : List KeyVal) : List Rec :=
  if !Log st Info then []
  else
    let url := match r.url with
      | none => Any "url" (.other "null" false "")
      | some u => Str "url" u
    let attr := [Str "method" r.method, url, Str "host" r.host,
      Str "proto" r.proto, Str "remote_addr" r.remoteAddr]
    let attr :=
      if !LogVerbose st then
        AddIfNotEmpty (AddIfNotEmpty (AddIfNotEmpty (AddIfNotEmpty attr
          "user-agent" (headerGet r "User-Agent"))
          "header.x-forwarded-proto" (headerGet r "X-Forwarded-Proto"))
          "header.x-forwarded-for" (headerGet r "X-Forwarded-For"))
          "header.x-forwarded-host" (headerGet r "X-Forwarded-Host")
      else attr
    let attr := AppendTLSInfoAttrs attr r
    let attr := attr ++ extraAttributes
    let attr :=
      if LogVerbose st then
        attr ++ ((r.headers.map Prod.fst).mergeSort (fun a b => a ≤ b)).map
          (fun name =>
            let nl := goToLower name
            let nl := if nl ≠ "user-agent" then "header." ++ nl else nl
            Str nl (String.intercalate ","
              ((List.lookup name r.headers).getD [])))
      else attr
    sFun st env Info false st.config.JSON msg attr

/-- `ResponseRecorder`, `http_logging.go` lines 137-142 (the wrapped writer
and start time live outside the model). -/
structure ResponseRecorder where
  StatusCode : Int
  ContentLength : Int
  deriving DecidableEq

/-- `ResponseRecorder.Write`, `http_logging.go` lines 148-157: `size` is the
byte count the wrapped writer reports, `errOccurred` whether it returned an
error; the recorder accumulates the size, forces status 500 on error and
defaults to 200 on first successful write. -/
def ResponseRecorder.write (rr : ResponseRecorder) (size : Int)
    (errOccurred : Bool) : ResponseRecorder :=
  let rr := { rr with ContentLength := rr.ContentLength + size }
  if errOccurred then { rr with StatusCode := 500 }
  else if rr.StatusCode = 0 then { rr with StatusCode := 200 }
  else rr

/-- `LogResponse` for a `*ResponseRecorder`, `http_logging.go` lines
113-134. -/
def LogResponse (st : LogState) (env : Env) (rr : ResponseRecorder)
    (msg : String) (extraAttributes : List KeyVal) : List Rec :=
  if !Log st Info then []
  else
    sFun st env Info false st.config.JSON msg
      ([IntKV "status" rr.StatusCode, Int64KV "size" rr.ContentLength]
        ++ extraAttributes)

/-- How a wrapped handler finishes: a normal return or a Go `panic` with
the given value. -/
inductive HandlerOutcome where
  | normal
  | panicked (v : GoVal)
  deriving DecidableEq

/-- An `http.HandlerFunc` as the logging wrapper observes it: from the fresh
`ResponseRecorder` it is given, the recorder state when it stops and
whether it returned or panicked. -/
def Handler := ResponseRecorder → ResponseRecorder × HandlerOutcome

/-- `LogAndCall`, `http_logging.go` lines 181-209.  `elapsedMicros` is the
`time.Since(respRec.startTime).Microseconds()` measurement.  Returns the
emitted records and the panic value the wrapper lets escape (`none` when the
handler returns or the combined branch recovers; in the combined branch the
deferred function recovers, logs at Critical, optionally logs the
Verbose-gated stack trace, and then still emits the combined request record
with the recorder's status/size). -/
def LogAndCall (st : LogState) (env : Env) (msg : String)
    (handlerFunc : Handler) (extraAttributes : List KeyVal) (r : HttpReq)
    (elapsedMicros : Int) : List Rec × Option GoVal :=
  if st.config.CombineRequestAndResponse then
    let res := handlerFunc ⟨0, 0⟩
    let respRec := res.1
    let panicRecs :=
      match res.2 with
      | .normal => []
      | .panicked v =>
          sFun st env Critical false st.config.JSON "panic in handler"
            [Any "error" v]
          ++ (if Log st Verbose then
              sFun st env Verbose false st.config.JSON "stack trace"
                [Str "stack" env.stack]
            else [])
    let attr := [IntKV "status" respRec.StatusCode,
      Int64KV "size" respRec.ContentLength,
      Int64KV "microsec" elapsedMicros] ++ extraAttributes
    (panicRecs ++ LogRequest st env r msg attr, none)
  else
    let reqRecs := LogRequest st env r msg extraAttributes
    let res := handlerFunc ⟨0, 0⟩
    match res.2 with
    | .panicked v => (reqRecs, some v)
    | .normal =>
        (reqRecs ++ LogResponse st env res.1 msg [Int64KV "microsec" elapsedMicros],
          none)

/-! Timestamp conversion, `logger.go` lines 150-174 and 376-383.  Go
`float64` arithmetic is modelled by exact rationals; within the int64 time
range relevant here the microsecond-resolution values round-trip through
`float64` with error below half a microsecond, so the exact model matches
the code's behavior. -/

/-- Go `time.Time.UnixMicro()`: nanoseconds since epoch divided by 1000,
Go integer division truncating toward zero. -/
def goUnixMicro (unixNanos : Int) : Int :=
  unixNanos.tdiv 1000

/-- `TimeToTS`, `logger.go` lines 376-383: `float64(t.UnixMicro()) / 1e6`
(exact-rational model of the float64 value). -/
def TimeToTS (unixNanos : Int) : ℚ :=
  ((goUnixMicro unixNanos : Int) : ℚ) / 1000000

/-- Go's `int64(f)` conversion of a float: truncation toward zero. -/
def truncToInt (q : ℚ) : Int :=
  q.num.tdiv q.den

/-- Go `math.Round`: round half away from zero. -/
def goMathRound (q : ℚ) : Int :=
  if 0 ≤ q then ⌊q + 1 / 2⌋ else ⌈q - 1 / 2⌉

/-- `JSONEntry.Time()`, `logger.go` lines 168-174:
`time.Unix(sec, int64(math.Round(1e6*(l.TS-float64(sec)))*1000))`, returned
here as nanoseconds since epoch of the resulting instant. -/
def JSONEntryTime (ts : ℚ) : Int :=
  let sec := truncToInt ts
  sec * 1000000000 + goMathRound (1000000 * (ts - (sec : ℚ))) * 1000

/-! Auxiliary, spec-side definitions used to state the claims. -/

/-- Whether `p` is a prefix of `s` (on character lists). -/
def hasPre : List Char → List Char → Bool
  | _, [] => true
  | [], _ :: _ => false
  | a :: s, b :: p => a == b && hasPre s p

/-- Whether `p` occurs contiguously inside `s`. -/
def hasSubAux : List Char → List Char → Bool
  | [], p => p.isEmpty
  | s@(_ :: t), p => hasPre s p || hasSubAux t p

/-- Whether `pat` occurs as a substring of `s`. -/
def strContainsSub (s pat : String) : Bool :=
  hasSubAux s.toList pat.toList

/-- Written from the spec's words (section 4.4 JSON branch / data-model
invariant): one single-line JSON object with the fixed key order
`ts, level, (r if enabled), (file, line if enabled), msg, ...attrs`,
newline-terminated. -/
def specJSONLine (cfg : LogConfig) (env : Env) (lvl : Level)
    (withFileLine withR : Bool) (msg : String) (attrs : List KeyVal) : String :=
  "\x7b"
  ++ (if cfg.NoTimestamp then "" else "\"ts\":" ++ formatTS6 env.nowUsec ++ ",")
  ++ "\"level\":" ++ levelToJSONStr lvl ++ ","
  ++ (if withR then "\"r\":" ++ toString env.gid ++ "," else "")
  ++ (if withFileLine then
        "\"file\":" ++ goQuote env.file ++ ",\"line\":" ++ toString env.line ++ ","
      else "")
  ++ "\"msg\":" ++ goQuote msg
  ++ String.join (attrs.map (fun a => "," ++ goQuote a.Key ++ ":" ++ a.StringValue))
  ++ "\x7d\n"

/-- The default server configuration, `DefaultConfig()` (`logger.go` lines
90-101), with the `Level` string at its post-`init` value. -/
def defaultConfig : LogConfig :=
  ⟨"> ", true, true, true, false, true, false, true, true, "Info"⟩

/-- A concrete sample state: default config, threshold `Info`, color off. -/
def stInfo : LogState :=
  ⟨defaultConfig, Info, false⟩

/-- A concrete sample environment. -/
def sampleEnv : Env :=
  ⟨1000000, "12:00:00", 7, "main.go", 42, "STACK"⟩

/-- A concrete state with JSON mode, goroutine-id logging enabled, and
file/line capture off. -/
def stGid : LogState :=
  ⟨⟨"> ", false, true, true, false, false, false, true, false, "Info"⟩, Info, false⟩

/-- A concrete state satisfying the fast-path configuration: JSON on,
file/line off, color off, timestamps on, goroutine id off. -/
def stFast : LogState :=
  ⟨⟨"> ", false, true, true, false, false, false, false, false, "Info"⟩, Info, false⟩

/-- A sample handler that writes 5 bytes successfully and then panics with
the string value "boom". -/
def boomHandler : Handler :=
  fun rr => (rr.write 5 false, .panicked (.str "boom"))

/-- A concrete sample request. -/
def sampleReq : HttpReq :=
  ⟨"GET", some "/x", "example.com", "HTTP/1.1", "10.0.0.1:1234", [], false, none⟩

instance : DecidableEq (Except String Level) := fun a b =>
  match a, b with
  | .ok x, .ok y => if h : x = y then .isTrue (by rw [h]) else .isFalse (by simp [h])
  | .error x, .error y => if h : x = y then .isTrue (by rw [h]) else .isFalse (by simp [h])
  | .ok _, .error _ => .isFalse (by simp)
  | .error _, .ok _ => .isFalse (by simp)

end FortioLog

namespace FortioLog

/-! Shared helper lemmas. -/

theorem logUnconditionalf_lvl (cfg : LogConfig) (color : Bool) (env : Env)
    (fl : Bool) (lvl : Level) (f : String) (re : Bool) (fo : String) :
    (logUnconditionalf cfg color env fl lvl f re fo).lvl = lvl := by
  unfold logUnconditionalf
  repeat' split
  all_goals rfl

theorem sGeneral_lvl (cfg : LogConfig) (color : Bool) (env : Env)
    (lvl : Level) (fl js : Bool) (msg : String) (attrs : List KeyVal) :
    (sGeneral cfg color env lvl fl js msg attrs).lvl = lvl := by
  unfold sGeneral
  repeat' split
  all_goals rfl

theorem logPrintf_eq_nil_iff (st : LogState) (env : Env) (lvl : Level)
    (f : String) (re : Bool) (fo : String) :
    logPrintf st env lvl f re fo = [] ↔ Log st lvl = false := by
  unfold logPrintf
  split
  · next h => simp_all
  · next h => simp_all; split <;> simp

theorem sFun_eq_nil_iff (st : LogState) (env : Env) (lvl : Level)
    (fl js : Bool) (msg : String) (attrs : List KeyVal) :
    sFun st env lvl fl js msg attrs = [] ↔ Log st lvl = false := by
  unfold sFun
  split
  · next h => simp_all
  · next h => simp_all; split <;> simp

theorem logPrintf_shape (st : LogState) (env : Env) (lvl : Level)
    (f : String) (re : Bool) (fo : String) (h : Log st lvl = true) :
    ∃ line, logPrintf st env lvl f re fo = [⟨lvl, line⟩] := by
  unfold logPrintf
  rw [h]
  simp only [Bool.not_true, Bool.false_eq_true, if_false]
  split
  · exact ⟨_, rfl⟩
  · rcases hE : logUnconditionalf st.config st.color env st.config.LogFileAndLine lvl f re fo with ⟨a, b⟩
    have ha : a = lvl := by
      have h2 := logUnconditionalf_lvl st.config st.color env st.config.LogFileAndLine lvl f re fo
      rw [hE] at h2
      exact h2
    exact ⟨b, by rw [ha]⟩

theorem sFun_shape (st : LogState) (env : Env) (lvl : Level)
    (fl js : Bool) (msg : String) (attrs : List KeyVal) (h : Log st lvl = true) :
    ∃ line, sFun st env lvl fl js msg attrs = [⟨lvl, line⟩] := by
  unfold sFun
  rw [h]
  simp only [Bool.not_true, Bool.false_eq_true, if_false]
  split
  · exact ⟨_, rfl⟩
  · rcases hE : sGeneral st.config st.color env lvl fl js msg attrs with ⟨a, b⟩
    have ha : a = lvl := by
      have h2 := sGeneral_lvl st.config st.color env lvl fl js msg attrs
      rw [hE] at h2
      exact h2
    exact ⟨b, by rw [ha]⟩

theorem setLogLevel_spec (st : LogState) (env : Env) (lvl : Level) (b : Bool) :
    ((lvl < Debug ∨ Critical < lvl) →
      (setLogLevel st env lvl b).1 = -1
      ∧ (setLogLevel st env lvl b).2.1 = st
      ∧ (setLogLevel st env lvl b).2.2.length = 1
      ∧ ∀ r ∈ (setLogLevel st env lvl b).2.2, r.lvl = Error)
    ∧ (Debug ≤ lvl → lvl ≤ Critical →
      (setLogLevel st env lvl b).1 = GetLogLevel st
      ∧ (setLogLevel st env lvl b).2.1.levelInternal = lvl) := by
  unfold setLogLevel
  constructor
  · rintro (hlt | hgt)
    · rw [if_pos hlt]
      refine ⟨rfl, rfl, rfl, ?_⟩
      intro r hr
      simp only [List.mem_singleton] at hr
      rw [hr]
      exact logUnconditionalf_lvl _ _ _ _ _ _ _ _
    · have hn : ¬ lvl < Debug := by
        unfold Debug
        unfold Critical at hgt
        intro hcon
        linarith
      rw [if_neg hn, if_pos hgt]
      refine ⟨rfl, rfl, rfl, ?_⟩
      intro r hr
      simp only [List.mem_singleton] at hr
      rw [hr]
      exact logUnconditionalf_lvl _ _ _ _ _ _ _ _
  · intro h1 h2
    have hn1 : ¬ lvl < Debug := by
      intro hcon
      unfold Debug at *
      linarith
    have hn2 : ¬ Critical < lvl := by
      intro hcon
      linarith
    rw [if_neg hn1, if_neg hn2]
    split
    · exact ⟨rfl, rfl⟩
    · next h =>
      simp only [ne_eq, Decidable.not_not] at h
      exact ⟨rfl, by rw [h]; rfl⟩

/-- C1: for every level `l` and installed threshold in `[Debug, Critical]`,
the suppression gate `Log l` is true iff `l` is at least the threshold, and
every leveled entry point (`Debugf`, `LogVf`, `Infof`, `Warnf`, `Errf`,
`Critf`, `Logf`, `S`) emits nothing when its level's gate is false and emits
exactly one record at its level when the gate is true. -/
theorem c1_suppression_gate (st : LogState) (env : Env) (lvl : Level)
    (format msg : String) (restEmpty : Bool) (formatted : String)
    (attrs : List KeyVal)
    (h1 : Debug ≤ st.levelInternal) (h2 : st.levelInternal ≤ Critical) :
    (Log st lvl = true ↔ st.levelInternal ≤ lvl)
    ∧ (Logf st env lvl format restEmpty formatted = [] ↔ Log st lvl = false)
    ∧ (Log st lvl = true →
        ∃ line, Logf st env lvl format restEmpty formatted = [⟨lvl, line⟩])
    ∧ (Debugf st env format restEmpty formatted = [] ↔ Log st Debug = false)
    ∧ (Log st Debug = true →
        ∃ line, Debugf st env format restEmpty formatted = [⟨Debug, line⟩])
    ∧ (LogVf st env format restEmpty formatted = [] ↔ Log st Verbose = false)
    ∧ (Log st Verbose = true →
        ∃ line, LogVf st env format restEmpty formatted = [⟨Verbose, line⟩])
    ∧ (Infof st env format restEmpty formatted = [] ↔ Log st Info = false)
    ∧ (Log st Info = true →
        ∃ line, Infof st env format restEmpty formatted = [⟨Info, line⟩])
    ∧ (Warnf st env format restEmpty formatted = [] ↔ Log st Warning = false)
    ∧ (Log st Warning = true →
        ∃ line, Warnf st env format restEmpty formatted = [⟨Warning, line⟩])
    ∧ (Errf st env format restEmpty formatted = [] ↔ Log st Error = false)
    ∧ (Log st Error = true →
        ∃ line, Errf st env format restEmpty formatted = [⟨Error, line⟩])
    ∧ (Critf st env format restEmpty formatted = [] ↔ Log st Critical = false)
    ∧ (Log st Critical = true →
        ∃ line, Critf st env format restEmpty formatted = [⟨Critical, line⟩])
    ∧ (S st env lvl msg attrs = [] ↔ Log st lvl = false)
    ∧ (Log st lvl = true → ∃ line, S st env lvl msg attrs = [⟨lvl, line⟩]) := by
  refine ⟨by simp [Log], ?_, ?_, ?_, ?_, ?_, ?_, ?_, ?_, ?_, ?_, ?_, ?_, ?_, ?_, ?_, ?_⟩
  · exact logPrintf_eq_nil_iff st env lvl format restEmpty formatted
  · exact logPrintf_shape st env lvl format restEmpty formatted
  · exact logPrintf_eq_nil_iff st env Debug format restEmpty formatted
  · exact logPrintf_shape st env Debug format restEmpty formatted
  · exact logPrintf_eq_nil_iff st env Verbose format restEmpty formatted
  · exact logPrintf_shape st env Verbose format restEmpty formatted
  · exact logPrintf_eq_nil_iff st env Info format restEmpty formatted
  · exact logPrintf_shape st env Info format restEmpty formatted
  · exact logPrintf_eq_nil_iff st env Warning format restEmpty formatted
  · exact logPrintf_shape st env Warning format restEmpty formatted
  · exact logPrintf_eq_nil_iff st env Error format restEmpty formatted
  · exact logPrintf_shape st env Error format restEmpty formatted
  · exact logPrintf_eq_nil_iff st env Critical format restEmpty formatted
  · exact logPrintf_shape st env Critical format restEmpty formatted
  · exact sFun_eq_nil_iff st env lvl st.config.LogFileAndLine st.config.JSON msg attrs
  · exact sFun_shape st env lvl st.config.LogFileAndLine st.config.JSON msg attrs

/-- C1 witness: at the default server state with threshold `Info`,
`Debugf` is suppressed and `Warnf` emits one record. -/
theorem c1_suppression_gate_witness :
    Debug ≤ stInfo.levelInternal ∧ stInfo.levelInternal ≤ Critical
    ∧ Debugf stInfo sampleEnv "x" true "x" = []
    ∧ (∃ line, Warnf stInfo sampleEnv "x" true "x" = [⟨Warning, line⟩]) :=
  ⟨by decide, by decide,
    (c1_suppression_gate stInfo sampleEnv Warning "x" "m" true "x" []
      (by decide) (by decide)).2.2.2.1.mpr (by decide),
    (c1_suppression_gate stInfo sampleEnv Warning "x" "m" true "x" []
      (by decide) (by decide)).2.2.2.2.2.2.2.2.2.2.1 (by decide)⟩

/-- C2: with any installed threshold at most `Critical`, `Fatalf` always
emits exactly one record at `Fatal` level; afterwards, when
`Config.FatalPanics` is true it panics with `"aborting..."` (a recoverable
panic, reached without calling the exit function), and when false it calls
the configured exit function exactly once with status 1. -/
theorem c2_fatalf (st : LogState) (env : Env) (format : String)
    (restEmpty : Bool) (formatted : String)
    (h : st.levelInternal ≤ Critical) :
    (∃ line, (Fatalf st env format restEmpty formatted).1 = [⟨Fatal, line⟩])
    ∧ (st.config.FatalPanics = true →
        (Fatalf st env format restEmpty formatted).2 = .panicked "aborting...")
    ∧ (st.config.FatalPanics = false →
        (Fatalf st env format restEmpty formatted).2 = .exited 1) := by
  have hlog : Log st Fatal = true := by
    unfold Log
    simp only [decide_eq_true_eq]
    unfold Critical at h
    unfold Fatal
    linarith
  have hsh := logPrintf_shape st env Fatal format restEmpty formatted hlog
  refine ⟨?_, ?_, ?_⟩
  · have hfst : (Fatalf st env format restEmpty formatted).1
        = logPrintf st env Fatal format restEmpty formatted := by
      unfold Fatalf
      split
      all_goals rfl
    rw [hfst]
    exact hsh
  · intro hp
    unfold Fatalf
    rw [hp]
    rfl
  · intro hp
    unfold Fatalf
    rw [hp]
    rfl

/-- C2 witness: at the default server state (whose `FatalPanics` is true),
`Fatalf` emits one `Fatal` record and panics. -/
theorem c2_fatalf_witness :
    stInfo.levelInternal ≤ Critical
    ∧ (∃ line, (Fatalf stInfo sampleEnv "bye" true "bye").1 = [⟨Fatal, line⟩])
    ∧ (Fatalf stInfo sampleEnv "bye" true "bye").2 = .panicked "aborting..." :=
  ⟨by decide,
    (c2_fatalf stInfo sampleEnv "bye" true "bye" (by decide)).1,
    (c2_fatalf stInfo sampleEnv "bye" true "bye" (by decide)).2.1 (by decide)⟩

/-- C4: for every level outside `[Debug, Critical]` (which includes `Fatal`
and `NoLevel`), `SetLogLevel` and `SetLogLevelQuiet` emit exactly one record
at `Error` level, return the sentinel `-1`, and leave the state — in
particular the active threshold — unchanged (the model functions are total,
so no panic occurs); for every level inside `[Debug, Critical]` they install
the level and return the previous threshold. -/
theorem c4_set_log_level_range (st : LogState) (env : Env) (lvl : Level) :
    ((lvl < Debug ∨ Critical < lvl) →
      (SetLogLevel st env lvl).1 = -1
      ∧ (SetLogLevel st env lvl).2.1 = st
      ∧ (SetLogLevel st env lvl).2.2.length = 1
      ∧ (∀ r ∈ (SetLogLevel st env lvl).2.2, r.lvl = Error)
      ∧ (SetLogLevelQuiet st env lvl).1 = -1
      ∧ (SetLogLevelQuiet st env lvl).2.1 = st
      ∧ (SetLogLevelQuiet st env lvl).2.2.length = 1
      ∧ (∀ r ∈ (SetLogLevelQuiet st env lvl).2.2, r.lvl = Error))
    ∧ (Debug ≤ lvl → lvl ≤ Critical →
      (SetLogLevel st env lvl).1 = GetLogLevel st
      ∧ (SetLogLevel st env lvl).2.1.levelInternal = lvl
      ∧ (SetLogLevelQuiet st env lvl).1 = GetLogLevel st
      ∧ (SetLogLevelQuiet st env lvl).2.1.levelInternal = lvl) := by
  have hT := setLogLevel_spec st env lvl true
  have hF := setLogLevel_spec st env lvl false
  exact ⟨fun h => ⟨(hT.1 h).1, (hT.1 h).2.1, (hT.1 h).2.2.1, (hT.1 h).2.2.2,
      (hF.1 h).1, (hF.1 h).2.1, (hF.1 h).2.2.1, (hF.1 h).2.2.2⟩,
    fun ha hb => ⟨(hT.2 ha hb).1, (hT.2 ha hb).2, (hF.2 ha hb).1, (hF.2 ha hb).2⟩⟩

/-- C4 witness: setting `NoLevel` is rejected with `-1` and no state change;
setting `Warning` installs it. -/
theorem c4_set_log_level_range_witness :
    (NoLevel < Debug ∨ Critical < NoLevel)
    ∧ (SetLogLevel stInfo sampleEnv NoLevel).1 = -1
    ∧ (SetLogLevel stInfo sampleEnv NoLevel).2.1 = stInfo
    ∧ Debug ≤ Warning ∧ Warning ≤ Critical
    ∧ (SetLogLevel stInfo sampleEnv Warning).2.1.levelInternal = Warning :=
  ⟨by right; decide,
    ((c4_set_log_level_range stInfo sampleEnv NoLevel).1 (by right; decide)).1,
    ((c4_set_log_level_range stInfo sampleEnv NoLevel).1 (by right; decide)).2.1,
    by decide, by decide,
    ((c4_set_log_level_range stInfo sampleEnv Warning).2 (by decide) (by decide)).2.1⟩

/-- C10: `SetLogLevelStr` with the name "fatal" (or "Fatal") returns a nil
error — `ValidateLevel` accepts `Fatal` — yet the state, and hence the
active threshold, is left completely unchanged, because the inner
`SetLogLevel` rejects `Fatal` as out of range (emitting one record at
`Error` level); the string-based setter reports success while performing no
state change. -/
theorem c10_set_fatal_str_quirk (st : LogState) (env : Env) :
    ((SetLogLevelStr st env "fatal").1 = none
      ∧ (SetLogLevelStr st env "fatal").2.1 = st
      ∧ (SetLogLevelStr st env "fatal").2.2.length = 1
      ∧ ∀ r ∈ (SetLogLevelStr st env "fatal").2.2, r.lvl = Error)
    ∧ ((SetLogLevelStr st env "Fatal").1 = none
      ∧ (SetLogLevelStr st env "Fatal").2.1 = st) := by
  have hl1 : List.lookup "fatal" levelToStrM = some Fatal := by decide
  have hl2 : List.lookup "Fatal" levelToStrM = some Fatal := by decide
  have hv1 : ValidateLevel "fatal" = .ok Fatal := by
    unfold ValidateLevel
    rw [hl1]
  have hv2 : ValidateLevel "Fatal" = .ok Fatal := by
    unfold ValidateLevel
    rw [hl2]
  have he1 : SetLogLevelStr st env "fatal"
      = (none, (setLogLevel st env Fatal true).2.1, (setLogLevel st env Fatal true).2.2) := by
    unfold SetLogLevelStr
    rw [hv1]
    rfl
  have he2 : SetLogLevelStr st env "Fatal"
      = (none, (setLogLevel st env Fatal true).2.1, (setLogLevel st env Fatal true).2.2) := by
    unfold SetLogLevelStr
    rw [hv2]
    rfl
  have hrange : (Fatal < Debug ∨ Critical < Fatal) := by
    right
    unfold Critical Fatal
    norm_num
  have h1 := (setLogLevel_spec st env Fatal true).1 hrange
  rw [he1, he2]
  exact ⟨⟨rfl, h1.2.1, h1.2.2.1, h1.2.2.2⟩, rfl, h1.2.1⟩

/-- C8: rendering a KeyVal built by the `Any`/`Attr` constructors produces
the natural textual form for booleans and numerics (`true`, `42`), the
double-quoted escaped form for strings, and the generic JSON serialization
for every other type — except that an error value whose serialization is the
empty object renders its quoted `Error()` message; the attribute
`count`/`3` renders as `, count=3` in text mode and `,"count":3` in JSON
mode. -/
theorem c8_attr_rendering (key s errMsg jsonRepr rendered : String) (b : Bool)
    (i : Int) (lvl : Level) :
    (Any key (.bool b)).StringValue = (if b then "true" else "false")
    ∧ (Any key (.bool true)).StringValue = "true"
    ∧ (Any key (.int i)).StringValue = toString i
    ∧ (Any key (.int 42)).StringValue = "42"
    ∧ (Any key (.float rendered)).StringValue = rendered
    ∧ (Any key (.str s)).StringValue = goQuote s
    ∧ (jsonRepr ≠ "\x7b\x7d" → (Any key (.other jsonRepr true errMsg)).StringValue = jsonRepr)
    ∧ (Any key (.other jsonRepr false errMsg)).StringValue = jsonRepr
    ∧ (Any key (.other "\x7b\x7d" true errMsg)).StringValue = goQuote errMsg
    ∧ Attr key (.int i) = Any key (.int i)
    ∧ sAttrPiece false false lvl (IntKV "count" 3) = ", count=3"
    ∧ sAttrPiece false true lvl (IntKV "count" 3) = ",\"count\":3" := by
  refine ⟨rfl, rfl, rfl, rfl, rfl, rfl, ?_, rfl, ?_, rfl, rfl, rfl⟩
  · intro h
    simp [Any, KeyVal.StringValue, GoVal.render, toJSON, h]
  · simp [Any, KeyVal.StringValue, GoVal.render, toJSON]

/-- C8 witness: a non-empty-object error serialization renders verbatim. -/
theorem c8_attr_rendering_witness :
    ("[1,2]" : String) ≠ "\x7b\x7d"
    ∧ (Any "ids" (.other "[1,2]" true "oops")).StringValue = "[1,2]" :=
  ⟨by decide,
    (c8_attr_rendering "ids" "v" "oops" "[1,2]" "1.5" true 3 Info).2.2.2.2.2.2.1
      (by decide)⟩

/-- C3 counterexample: with `Config.GoroutineID` true, JSON mode resolved
(color off) and file/line capture off, the record emitted by `S` contains no
`"r"` key at all, while the printf-style path emits one — so the claim that
the `r` field is present in JSON output from `S` whenever
`Config.GoroutineID` is true is false at this input. -/
theorem c3_counterexample :
    stGid.config.GoroutineID = true
    ∧ stGid.config.JSON = true
    ∧ stGid.color = false
    ∧ S stGid sampleEnv Info "hi" []
        = [⟨Info, "\x7b\"ts\":1.000000,\"level\":\"info\",\"msg\":\"hi\"\x7d\n"⟩]
    ∧ strContainsSub "\x7b\"ts\":1.000000,\"level\":\"info\",\"msg\":\"hi\"\x7d\n" "\"r\":" = false
    ∧ logPrintf stGid sampleEnv Info "hi" true "hi"
        = [⟨Info, "\x7b\"ts\":1.000000,\"level\":\"info\",\"r\":7,\"msg\":\"hi\"\x7d\n"⟩] := by
  refine ⟨by decide, by decide, by decide, by decide, by decide, by decide⟩

/-- C3 amended: in resolved JSON mode every record has the fixed key order
`ts, level, (r), (file, line), msg, ...attrs`, with the `r` key present iff
`Config.GoroutineID` is enabled on the printf-style path and on the `S` path
with file/line capture; the `S` path without file/line capture omits the
goroutine id even when enabled (its key order is `ts, level, msg, attrs`),
and the fast path emits `ts, level, msg` with no gid (it only runs with the
gid disabled). -/
theorem c3_json_field_order (cfg : LogConfig) (env : Env) (lvl : Level)
    (msg : String) (attrs : List KeyVal) (fl : Bool)
    (hJ : cfg.JSON = true) :
    (logUnconditionalf cfg false env fl lvl msg false msg).line
      = specJSONLine cfg env lvl fl cfg.GoroutineID msg []
    ∧ (logSimpleJSON env lvl msg).line
      = specJSONLine { cfg with NoTimestamp := false, GoroutineID := false } env lvl false false msg []
    ∧ (sGeneral cfg false env lvl true true msg attrs).line
      = specJSONLine cfg env lvl true cfg.GoroutineID msg attrs
    ∧ (sGeneral cfg false env lvl false true msg attrs).line
      = specJSONLine cfg env lvl false false msg attrs := by
  refine ⟨?_, ?_, ?_, ?_⟩
  · unfold logUnconditionalf specJSONLine jsonTimestamp jsonGID
    rcases fl <;> rcases hT : cfg.NoTimestamp <;> rcases hG : cfg.GoroutineID <;>
      simp [hJ, hT, hG, String.append_assoc, String.empty_append, String.append_empty] <;>
      (apply String.ext ; simp [String.data_append])
  · unfold logSimpleJSON specJSONLine
    apply String.ext
    simp [String.data_append]
  · unfold sGeneral specJSONLine jsonTimestamp jsonGID sAttrPiece
    rcases hT : cfg.NoTimestamp <;> rcases hG : cfg.GoroutineID <;>
      simp [hJ, hT, hG, String.append_assoc, String.empty_append, String.append_empty] <;>
      (apply String.ext ; simp [String.data_append])
  · unfold sGeneral specJSONLine jsonTimestamp sAttrPiece
    rcases hT : cfg.NoTimestamp <;>
      simp [hJ, hT, String.append_assoc, String.empty_append, String.append_empty]

/-- C3 witness: the amended field-order theorem applied at a concrete
configuration. -/
theorem c3_json_field_order_witness :
    stGid.config.JSON = true
    ∧ (sGeneral stGid.config false sampleEnv Info false true "hi" []).line
      = specJSONLine stGid.config sampleEnv Info false false "hi" [] :=
  ⟨by decide,
    (c3_json_field_order stGid.config sampleEnv Info "hi" [] false (by decide)).2.2.2⟩

/-- C6: under the fast-path configuration (JSON on, file/line off, color
off, timestamps on, goroutine id off, no format arguments/attributes), the
record produced by `logSimpleJSON` is identical — same fields, order,
escaping and timestamp formatting — to the record the general path
(`logUnconditionalf`, and the general branch of `s`) produces for the same
level and message, and under that configuration `logPrintf` and `s` indeed
dispatch to the fast path. -/
theorem c6_fast_path_equiv (cfg : LogConfig) (env : Env) (lvl : Level) (msg : String)
    (hJ : cfg.JSON = true) (hF : cfg.LogFileAndLine = false)
    (hT : cfg.NoTimestamp = false) (hG : cfg.GoroutineID = false) :
    logSimpleJSON env lvl msg = logUnconditionalf cfg false env false lvl msg true msg
    ∧ logSimpleJSON env lvl msg = sGeneral cfg false env lvl false true msg []
    ∧ (∀ st : LogState, st.config = cfg → st.color = false → Log st lvl = true →
        logPrintf st env lvl msg true msg = [logSimpleJSON env lvl msg]
        ∧ sFun st env lvl false true msg [] = [logSimpleJSON env lvl msg]) := by
  refine ⟨?_, ?_, ?_⟩
  · unfold logSimpleJSON logUnconditionalf jsonTimestamp jsonGID
    simp only [hJ, hT, hG, Bool.not_false, if_true, if_false, Bool.false_eq_true]
    simp [Rec.mk.injEq]
    apply String.ext
    simp [String.data_append]
  · unfold logSimpleJSON sGeneral jsonTimestamp sAttrPiece
    simp only [hT, if_false, Bool.false_eq_true]
    simp [Rec.mk.injEq]
    apply String.ext
    simp [String.data_append]
  · intro st hst hc hl
    constructor
    · unfold logPrintf
      rw [hl, hst, hc]
      simp [hJ, hF, hT, hG]
    · unfold sFun
      rw [hl, hst, hc]
      simp [hJ, hF, hT, hG]

/-- C6 witness: the equivalence at a concrete fast-path state, level and
message. -/
theorem c6_fast_path_equiv_witness :
    stFast.config.JSON = true ∧ stFast.config.LogFileAndLine = false
    ∧ stFast.config.NoTimestamp = false ∧ stFast.config.GoroutineID = false
    ∧ logSimpleJSON sampleEnv Info "hello 5"
        = logUnconditionalf stFast.config false sampleEnv false Info "hello 5" true "hello 5"
    ∧ logSimpleJSON sampleEnv Info "hello 5"
        = sGeneral stFast.config false sampleEnv Info false true "hello 5" [] :=
  ⟨by decide, by decide, by decide, by decide,
    (c6_fast_path_equiv stFast.config sampleEnv Info "hello 5"
      (by decide) (by decide) (by decide) (by decide)).1,
    (c6_fast_path_equiv stFast.config sampleEnv Info "hello 5"
      (by decide) (by decide) (by decide) (by decide)).2.1⟩

theorem validate_lower_names :
    ∀ l : Nat, l < 7 →
      ValidateLevel (LevelToStrA.getD l "") = .ok (l : Int)
      ∧ ValidateLevel (goToLower (LevelToStrA.getD l "")) = .ok (l : Int) := by
  decide

/-- C9 counterexample: "DEBUG" is a casing of the valid name "Debug"; the
flag path (which lowercases its input) accepts it and installs `Debug`, but
the environment path validates the raw string and rejects it, leaving the
threshold unchanged — so the claim that for every valid level name any
casing supplied through either configuration path maps to that level is
false at this input. -/
theorem c9_counterexample :
    ValidateLevel "DEBUG"
      = .error "should be one of [Debug Verbose Info Warning Error Critical Fatal]"
    ∧ (configFromEnvLevel stInfo sampleEnv "DEBUG" "Info").1.levelInternal
        = stInfo.levelInternal
    ∧ (flagSet stInfo sampleEnv "DEBUG").1 = none
    ∧ (flagSet stInfo sampleEnv "DEBUG").2.1.levelInternal = Debug := by
  refine ⟨by decide, by decide, by decide, by decide⟩

/-- C9 amended: the flag path trims and lowercases its input, so any casing
of a valid level name is accepted there (and installed when in the settable
range); `ValidateLevel` — the lookup the environment path uses directly —
accepts exactly the canonical capitalized and all-lowercase spellings; every
string outside the level-name set is rejected with the fixed descriptive
error enumerating the valid choices, and neither rejection path mutates the
threshold. -/
theorem c9_level_lookup (st : LogState) (env : Env) (s : String) (l : Nat)
    (hl : l < 7) (htrim : goTrimSpace s = s)
    (hcase : goToLower s = goToLower (LevelToStrA.getD l "")) :
    ((flagSet st env s).1 = none
      ∧ (l ≤ 5 → (flagSet st env s).2.1.levelInternal = (l : Int)))
    ∧ (∀ t : String, List.lookup (goToLower (goTrimSpace t)) levelToStrM = none →
        flagSet st env t
          = (some ("should be one of [" ++ " ".intercalate LevelToStrA ++ "]"), st, []))
    ∧ (∀ t : String, List.lookup t levelToStrM = none →
        ValidateLevel t
          = .error ("should be one of [" ++ " ".intercalate LevelToStrA ++ "]")
        ∧ ∀ prev : String,
          (configFromEnvLevel st env t prev).1.levelInternal = st.levelInternal)
    ∧ (∀ m : Nat, m < 7 →
        ValidateLevel (LevelToStrA.getD m "") = .ok (m : Int)
        ∧ ValidateLevel (goToLower (LevelToStrA.getD m "")) = .ok (m : Int)) := by
  have hv := (validate_lower_names l hl).2
  refine ⟨?_, ?_, ?_, validate_lower_names⟩
  · constructor
    · simp only [flagSet, htrim, hcase, hv]
    · intro hle
      have hspec := (setLogLevel_spec st env (l : Int) true).2
        (by unfold Debug; positivity)
        (by unfold Critical; exact_mod_cast hle)
      simp only [flagSet, htrim, hcase, hv]
      exact hspec.2
  · intro t hnone
    simp only [flagSet, ValidateLevel, hnone]
  · intro t hnone
    have hval : ValidateLevel t
        = .error ("should be one of [" ++ " ".intercalate LevelToStrA ++ "]") := by
      unfold ValidateLevel
      rw [hnone]
    refine ⟨hval, ?_⟩
    intro prev
    simp only [configFromEnvLevel, hval]
    split
    · rfl
    · rfl

/-- C9 witness: the mixed casing "DeBuG" is accepted by the flag path and
installs `Debug`. -/
theorem c9_level_lookup_witness :
    (0 : Nat) < 7 ∧ goTrimSpace "DeBuG" = "DeBuG"
    ∧ goToLower "DeBuG" = goToLower (LevelToStrA.getD 0 "")
    ∧ (flagSet stInfo sampleEnv "DeBuG").1 = none
    ∧ (flagSet stInfo sampleEnv "DeBuG").2.1.levelInternal = ((0 : Nat) : Int) :=
  ⟨by decide, by decide, by decide,
    ((c9_level_lookup stInfo sampleEnv "DeBuG" 0 (by decide) (by decide) (by decide)).1).1,
    ((c9_level_lookup stInfo sampleEnv "DeBuG" 0 (by decide) (by decide) (by decide)).1).2
      (by decide)⟩

theorem truncToInt_eq_floor (q : ℚ) (h : 0 ≤ q) : truncToInt q = ⌊q⌋ := by
  unfold truncToInt
  rw [Int.tdiv_eq_ediv (Rat.num_nonneg.mpr h) (by positivity), Rat.floor_def]

theorem goMathRound_intCast (r : Int) (h : 0 ≤ r) : goMathRound (r : ℚ) = r := by
  unfold goMathRound
  rw [if_pos (by positivity)]
  rw [Int.floor_int_add r (1/2 : ℚ)]
  norm_num

/-- C5: for every time after the epoch, `TimeToTS` equals the whole
microseconds since epoch divided by one million (so the sub-microsecond part
is truncated and raw nanoseconds are never used), and `JSONEntry.Time`
applied to that value recovers the time truncated — never rounded — to
microsecond resolution: the round trip equals the original nanoseconds minus
their remainder modulo 1000. -/
theorem c5_time_roundtrip (nanos : Int) (h0 : 0 ≤ nanos) :
    TimeToTS nanos = ((nanos.tdiv 1000 : Int) : ℚ) / 1000000
    ∧ JSONEntryTime (TimeToTS nanos) = (nanos.tdiv 1000) * 1000
    ∧ (nanos.tdiv 1000) * 1000 = nanos - nanos.tmod 1000 := by
  refine ⟨rfl, ?_, ?_⟩
  · set u : Int := nanos.tdiv 1000 with hu
    have hu0 : 0 ≤ u := Int.tdiv_nonneg h0 (by norm_num)
    set s0 : Int := u / 1000000 with hs0
    set r : Int := u % 1000000 with hr
    have hdecomp : 1000000 * s0 + r = u := Int.ediv_add_emod u 1000000
    have hr0 : 0 ≤ r := Int.emod_nonneg u (by norm_num)
    have hq : TimeToTS nanos = (u : ℚ) / 1000000 := rfl
    have hfloor : truncToInt ((u : ℚ) / 1000000) = s0 := by
      rw [truncToInt_eq_floor _ (by positivity)]
      have := Rat.floor_intCast_div_natCast u 1000000
      simpa using this
    rw [hq]
    unfold JSONEntryTime
    rw [hfloor]
    show s0 * 1000000000 + goMathRound (1000000 * ((u : ℚ) / 1000000 - (s0 : ℚ))) * 1000
      = u * 1000
    have hfrac : (1000000 : ℚ) * ((u : ℚ) / 1000000 - (s0 : ℚ)) = (r : ℚ) := by
      have : (u : ℚ) = 1000000 * (s0 : ℚ) + (r : ℚ) := by
        exact_mod_cast congrArg (fun z : Int => (z : ℚ)) hdecomp.symm
      rw [this]
      ring
    rw [hfrac, goMathRound_intCast r hr0]
    have : (1000000 * s0 + r) * 1000 = s0 * 1000000000 + r * 1000 := by ring
    rw [← hdecomp]
    linarith [this]
  · have := Int.tdiv_add_tmod nanos 1000
    linarith

/-- C5 witness: the spec's example timestamp with trailing nanoseconds 400
(and a variant with trailing 999, which rounding would carry up) both
truncate through the round trip. -/
theorem c5_time_roundtrip_witness :
    (0 : Int) ≤ 1688763601199999400
    ∧ JSONEntryTime (TimeToTS 1688763601199999400) = 1688763601199999000
    ∧ JSONEntryTime (TimeToTS 1688763601199999999) = 1688763601199999000 := by
  refine ⟨by decide, ?_, ?_⟩
  · have h := (c5_time_roundtrip 1688763601199999400 (by decide)).2.1
    rw [h]
    decide
  · have h := (c5_time_roundtrip 1688763601199999999 (by decide)).2.1
    rw [h]
    decide

theorem LogRequest_shape (st : LogState) (env : Env) (r : HttpReq)
    (msg : String) (extraAttributes : List KeyVal) (h : Log st Info = true) :
    ∃ line, LogRequest st env r msg extraAttributes = [⟨Info, line⟩] := by
  unfold LogRequest
  rw [h]
  simp only [Bool.not_true, Bool.false_eq_true, if_false]
  exact sFun_shape st env Info false st.config.JSON msg _ h

/-- C7: with combined logging enabled and the threshold at most `Info`, a
handler that panics with "boom" has its panic recovered (nothing escapes the
wrapper); the wrapper emits a Critical record carrying the `error`/"boom"
attribute, a Verbose stack-trace record exactly when Verbose is active, and
then the combined request record whose attributes carry the status and size
recorded by the `ResponseRecorder`; exactly one emitted record is at
Critical level and exactly one (the combined one) at Info level. -/
theorem c7_log_and_call_panic (st : LogState) (env : Env) (msg : String)
    (handlerFunc : Handler) (extra : List KeyVal) (r : HttpReq)
    (elapsed : Int) (rr1 : ResponseRecorder)
    (hcomb : st.config.CombineRequestAndResponse = true)
    (hlo : Debug ≤ st.levelInternal) (hhi : st.levelInternal ≤ Info)
    (hh : handlerFunc ⟨0, 0⟩ = (rr1, .panicked (.str "boom"))) :
    (LogAndCall st env msg handlerFunc extra r elapsed).2 = none
    ∧ (LogAndCall st env msg handlerFunc extra r elapsed).1
      = sFun st env Critical false st.config.JSON "panic in handler"
          [Any "error" (.str "boom")]
        ++ (if Log st Verbose then
            sFun st env Verbose false st.config.JSON "stack trace" [Str "stack" env.stack]
          else [])
        ++ LogRequest st env r msg
            ([IntKV "status" rr1.StatusCode, Int64KV "size" rr1.ContentLength,
              Int64KV "microsec" elapsed] ++ extra)
    ∧ ((LogAndCall st env msg handlerFunc extra r elapsed).1.filter
        (fun rc => rc.lvl == Critical)).length = 1
    ∧ ((LogAndCall st env msg handlerFunc extra r elapsed).1.filter
        (fun rc => rc.lvl == Info)).length = 1
    ∧ (Log st Verbose = false →
        (LogAndCall st env msg handlerFunc extra r elapsed).1.length = 2)
    ∧ (Log st Verbose = true →
        (LogAndCall st env msg handlerFunc extra r elapsed).1.length = 3) := by
  have hcrit : Log st Critical = true := by
    unfold Log
    simp only [decide_eq_true_eq]
    unfold Critical
    unfold Info at hhi
    linarith
  have hinfo : Log st Info = true := by
    unfold Log
    simp only [decide_eq_true_eq]
    unfold Info at *
    linarith
  have hmain : (LogAndCall st env msg handlerFunc extra r elapsed)
      = (sFun st env Critical false st.config.JSON "panic in handler"
          [Any "error" (.str "boom")]
        ++ (if Log st Verbose then
            sFun st env Verbose false st.config.JSON "stack trace" [Str "stack" env.stack]
          else [])
        ++ LogRequest st env r msg
            ([IntKV "status" rr1.StatusCode, Int64KV "size" rr1.ContentLength,
              Int64KV "microsec" elapsed] ++ extra), none) := by
    simp only [LogAndCall, hcomb, if_true, hh]
  obtain ⟨lineC, eqC⟩ := sFun_shape st env Critical false st.config.JSON
    "panic in handler" [Any "error" (.str "boom")] hcrit
  obtain ⟨lineR, eqR⟩ := LogRequest_shape st env r msg
    ([IntKV "status" rr1.StatusCode, Int64KV "size" rr1.ContentLength,
      Int64KV "microsec" elapsed] ++ extra) hinfo
  refine ⟨by rw [hmain], by rw [hmain], ?_, ?_, ?_, ?_⟩
  · rw [hmain]
    rcases hV : Log st Verbose
    · simp only [hV, Bool.false_eq_true, if_false, List.append_nil]
      rw [eqC, eqR]
      simp [Critical, Info]
    · obtain ⟨lineV, eqV⟩ := sFun_shape st env Verbose false st.config.JSON
        "stack trace" [Str "stack" env.stack] hV
      simp only [hV, if_true]
      rw [eqC, eqR, eqV]
      simp [Critical, Info, Verbose]
  · rw [hmain]
    rcases hV : Log st Verbose
    · simp only [hV, Bool.false_eq_true, if_false, List.append_nil]
      rw [eqC, eqR]
      simp [Critical, Info]
    · obtain ⟨lineV, eqV⟩ := sFun_shape st env Verbose false st.config.JSON
        "stack trace" [Str "stack" env.stack] hV
      simp only [hV, if_true]
      rw [eqC, eqR, eqV]
      simp [Critical, Info, Verbose]
  · intro hV
    rw [hmain]
    simp only [hV, Bool.false_eq_true, if_false, List.append_nil]
    rw [eqC, eqR]
    simp
  · intro hV
    obtain ⟨lineV, eqV⟩ := sFun_shape st env Verbose false st.config.JSON
      "stack trace" [Str "stack" env.stack] hV
    rw [hmain]
    simp only [hV, if_true]
    rw [eqC, eqR, eqV]
    simp

/-- C7 witness: a concrete handler that writes 5 bytes and panics with
"boom", at the default server state; the rendered Critical line visibly
carries the quoted "boom" attribute value. -/
theorem c7_log_and_call_panic_witness :
    stInfo.config.CombineRequestAndResponse = true
    ∧ Debug ≤ stInfo.levelInternal ∧ stInfo.levelInternal ≤ Info
    ∧ boomHandler ⟨0, 0⟩ = (⟨200, 5⟩, .panicked (.str "boom"))
    ∧ (LogAndCall stInfo sampleEnv "req" boomHandler [] sampleReq 10).2 = none
    ∧ ((LogAndCall stInfo sampleEnv "req" boomHandler [] sampleReq 10).1.filter
        (fun rc => rc.lvl == Critical)).length = 1
    ∧ strContainsSub
        ((LogAndCall stInfo sampleEnv "req" boomHandler [] sampleReq 10).1.headD
          ⟨NoLevel, ""⟩).line "\"boom\"" = true :=
  ⟨by decide, by decide, by decide, by decide,
    (c7_log_and_call_panic stInfo sampleEnv "req" boomHandler [] sampleReq 10
      ⟨200, 5⟩ (by decide) (by decide) (by decide) (by decide)).1,
    (c7_log_and_call_panic stInfo sampleEnv "req" boomHandler [] sampleReq 10
      ⟨200, 5⟩ (by decide) (by decide) (by decide) (by decide)).2.2.1,
    by decide⟩

end FortioLog
